import Mathlib

/-!
Verification of the AgroStack AI price engine (engine.py, federatedlearning.py).

Shallow embedding conventions:
* Python floats are modelled as rationals (ℚ); `round(x, n)` is modelled as
  rounding to the nearest multiple of 10^(-n) (`pyRound`), with halves rounded
  up (the claims under study never hit a halfway point, where CPython uses a
  float-based round-half-to-even).
* A Python function that can raise is modelled as returning `Except String _`
  (the string names the Python exception), or `Option` for the sub-model
  predict calls whose numeric value is opaque.
* The Prophet / TensorFlow sub-models are external capabilities: the numeric
  outcome of a `predict` call is modelled as an `Option ℚ` field (`none`
  meaning the call raises for whatever reason).
* numpy weight tensors are modelled as rank-1 lists of rationals; in-place
  `+=` broadcasting follows the numpy rule for rank-1 operands: the right
  operand must have the same length as the accumulator or length 1.
-/

/-- Python `round(x, ndigits)` on ℚ: nearest multiple of `10^(-ndigits)`. -/
def pyRound (ndigits : ℕ) (x : ℚ) : ℚ := ((⌊x * 10 ^ ndigits + 1/2⌋ : ℤ) : ℚ) / 10 ^ ndigits

/-- Python `str.strip()` on a character list (leading/trailing whitespace). -/
def stripChars (l : List Char) : List Char :=
  ((l.dropWhile Char.isWhitespace).reverse.dropWhile Char.isWhitespace).reverse

def pyStrip (s : String) : String := ⟨stripChars s.data⟩

/-- Python `str.lower()` (ASCII range, which covers every crop key). -/
def pyLower (s : String) : String := ⟨s.data.map Char.toLower⟩

/-- Python `s.replace("_", " ")`. -/
def underscoreToSpace (s : String) : String :=
  ⟨s.data.map (fun c => if c = '_' then ' ' else c)⟩

/-- Python `str.title()`: first letter of each alphabetic run upper-cased,
the rest lower-cased. -/
def pyTitleChars : List Char → Bool → List Char
  | [], _ => []
  | c :: cs, prevAlpha =>
    (if c.isAlpha then (if prevAlpha then c.toLower else c.toUpper) else c) ::
      pyTitleChars cs c.isAlpha

def pyTitle (s : String) : String := ⟨pyTitleChars s.data false⟩

/-- numpy `mean` of a rank-1 array. -/
def npMean (l : List ℚ) : ℚ := l.sum / (l.length : ℚ)

-- engine.py: AgronomicAdvisoryLayer

/-- One entry of the CROP_KNOWLEDGE table in engine.py. -/
structure CropRule where
  metric : String
  op : String
  val : ℚ
  bias : ℚ
  impact : String
deriving DecidableEq

/-- engine.py lines 49-83: the Kottayam agronomic crop knowledge base.
The impact strings are claim-irrelevant and kept verbatim. -/
def CROP_KNOWLEDGE : List (String × CropRule) := [
  ("rubber",         ⟨"precip",     ">", 1/10, 105/100, "Tapping interference detected. Daily supply likely to drop."⟩),
  ("black pepper",   ⟨"humidity",   ">", 85,   108/100, "Fungal stress alert. Potential for spike shedding."⟩),
  ("pepper",         ⟨"humidity",   ">", 85,   108/100, "Fungal stress alert. Potential for spike shedding."⟩),
  ("cardamom",       ⟨"temp",       ">", 30,   106/100, "Heat stress in high-ranges. Quality of green capsules may decline."⟩),
  ("coffee robusta", ⟨"rain_24h",   "<", 10,   104/100, "Blossom shower delay detected; critical for bean setting."⟩),
  ("tea",            ⟨"temp",       "<", 15,   105/100, "Frost/Cold stress in high-altitudes. Slows flush growth."⟩),
  ("arecanut",       ⟨"humidity",   ">", 90,   107/100, "Mahali (fruit rot) risk high due to persistent dampness."⟩),
  ("cashew",         ⟨"precip",     ">", 5,    104/100, "Unseasonal rain during flowering causes nut-drop and mold."⟩),
  ("paddy",          ⟨"rain_24h",   ">", 50,   106/100, "Submergence risk during grain filling. Supply chain disruption likely."⟩),
  ("rice",           ⟨"rain_24h",   ">", 50,   106/100, "Submergence risk during grain filling. Supply chain disruption likely."⟩),
  ("tapioca",        ⟨"rain_24h",   ">", 120,  90/100,  "Root saturation detected. Quality of starch may be affected."⟩),
  ("yam",            ⟨"temp",       ">", 38,   104/100, "Heat stress affecting tuber expansion in laterite soils."⟩),
  ("sweet potato",   ⟨"humidity",   "<", 50,   103/100, "Dry spell detected; critical for vine health in Kottayam midlands."⟩),
  ("banana nendran", ⟨"wind_speed", ">", 40,   110/100, "Lodging risk high for heavy bunches. Supply volatility expected."⟩),
  ("banana",         ⟨"wind_speed", ">", 40,   110/100, "Lodging risk high for heavy bunches. Supply volatility expected."⟩),
  ("pineapple",      ⟨"temp",       ">", 34,   103/100, "Sun-scald warning. Grade-A availability may tighten."⟩),
  ("jackfruit",      ⟨"rain_24h",   ">", 80,   105/100, "Internal rot risk due to excessive moisture absorption."⟩),
  ("mango",          ⟨"precip",     ">", 2,    106/100, "Unseasonal rain during bloom may cause Powdery Mildew."⟩),
  ("papaya",         ⟨"humidity",   ">", 95,   104/100, "Anthracnose risk high. Shelf-life of harvest will decrease."⟩),
  ("ginger",         ⟨"rain_24h",   ">", 150,  108/100, "Rhizome rot alert. Extreme moisture in clay-rich soils."⟩),
  ("turmeric",       ⟨"temp",       ">", 36,   104/100, "Leaf blotch risk during extreme heat waves."⟩),
  ("nutmeg",         ⟨"wind_speed", ">", 35,   106/100, "Fruit drop alert. High sensitivity to heavy monsoon gusts."⟩),
  ("cocoa",          ⟨"humidity",   "<", 60,   105/100, "Pod desiccation risk. Requires immediate shade management."⟩),
  ("clove",          ⟨"temp",       ">", 32,   104/100, "Drying stress on flower buds; impacts oil content."⟩),
  ("vanilla",        ⟨"humidity",   ">", 80,   105/100, "Critical for pollination success and bean length."⟩),
  ("betel leaf",     ⟨"temp",       "<", 18,   103/100, "Cold-induced wilting; common in Kottayam winter nights."⟩),
  ("cinnamon",       ⟨"precip",     ">", 20,   104/100, "Bark peeling difficulty increases with soil moisture spikes."⟩),
  ("garlic",         ⟨"humidity",   ">", 70,   105/100, "Bulb mold risk; requires dry conditions for curing."⟩),
  ("coconut",        ⟨"wind_speed", ">", 50,   112/100, "Button shedding / Premature nut fall due to high winds."⟩)]

/-- engine.py _OPS lookup with the `operator.gt` default of line 145. -/
def opApply (op_str : String) (a b : ℚ) : Bool :=
  if op_str = ">" then a > b
  else if op_str = "<" then a < b
  else if op_str = ">=" then a ≥ b
  else if op_str = "<=" then a ≤ b
  else a > b

/-- Return shape of AgronomicAdvisoryLayer.evaluate. -/
structure AdvisoryResult where
  triggered : Bool
  biological_risk_alert : Bool
  bias : ℚ
  insight : String
  rule_used : String
  metric_value : Option ℚ
deriving DecidableEq

/-- Abstract rendering of a rational in a message string (Python would print
the float; the exact digits are irrelevant to every claim). -/
def ratRepr (q : ℚ) : String := toString q

/-- engine.py lines 100-167: AgronomicAdvisoryLayer.evaluate. The weather
snapshot is modelled as a numeric association list (`weather.get(metric, 0)`
becomes a lookup with default 0). -/
def evaluate (crop_id : String) (weather : List (String × ℚ)) : AdvisoryResult :=
  let lookup := pyLower (pyStrip crop_id)
  let rule :=
    match CROP_KNOWLEDGE.lookup lookup with
    | some r => some r
    | none => CROP_KNOWLEDGE.lookup (underscoreToSpace lookup)
  match rule with
  | none =>
      { triggered := false
        biological_risk_alert := false
        bias := 1
        insight := "No agronomic rules defined for \x27" ++ crop_id ++ "\x27."
        rule_used := "none"
        metric_value := none }
  | some r =>
      let actual := (weather.lookup r.metric).getD 0
      let rule_desc := r.metric ++ " " ++ r.op ++ " " ++ ratRepr r.val
      if opApply r.op actual r.val then
        { triggered := true
          biological_risk_alert := true
          bias := r.bias
          insight := r.impact
          rule_used := rule_desc
          metric_value := some actual }
      else
        { triggered := false
          biological_risk_alert := false
          bias := 1
          insight := "No biological risk detected for " ++ pyTitle crop_id ++
            ". Weather within safe thresholds."
          rule_used := rule_desc
          metric_value := some actual }

lemma crop_keys_no_underscore :
    CROP_KNOWLEDGE.all (fun kv => underscoreToSpace kv.1 == kv.1) = true := by decide

lemma lookup_mem_keys {α β : Type} [BEq α] [LawfulBEq α] {l : List (α × β)} {s : α} {r : β}
    (h : l.lookup s = some r) : s ∈ l.map Prod.fst := by
  induction l with
  | nil => simp [List.lookup] at h
  | cons kv rest ih =>
      cases hbe : s == kv.1 with
      | true => simp [List.map, beq_iff_eq.mp hbe]
      | false =>
          simp only [List.lookup, hbe] at h
          simpa [List.map] using Or.inr (ih h)

/-- C9: evaluate on a crop whose normalized form is absent from the table
returns the neutral record. -/
theorem advisory_unknown_crop (crop_id : String) (weather : List (String × ℚ))
    (h : CROP_KNOWLEDGE.lookup (underscoreToSpace (pyLower (pyStrip crop_id))) = none) :
    evaluate crop_id weather =
      { triggered := false
        biological_risk_alert := false
        bias := 1
        insight := "No agronomic rules defined for \x27" ++ crop_id ++ "\x27."
        rule_used := "none"
        metric_value := none } := by
  have h1 : CROP_KNOWLEDGE.lookup (pyLower (pyStrip crop_id)) = none := by
    cases hl : CROP_KNOWLEDGE.lookup (pyLower (pyStrip crop_id)) with
    | none => rfl
    | some r =>
        exfalso
        have hmem := lookup_mem_keys hl
        have := crop_keys_no_underscore
        rw [List.all_eq_true] at this
        obtain ⟨kv, hkv, hfst⟩ := List.mem_map.mp hmem
        have hid := this kv hkv
        rw [beq_iff_eq] at hid
        have hLfix : underscoreToSpace (pyLower (pyStrip crop_id)) = pyLower (pyStrip crop_id) := by
          rw [← hfst]; exact hid
        rw [hLfix] at h
        rw [h] at hl
        exact Option.noConfusion hl
  simp only [evaluate, h1, h]

-- engine.py: SeasonalityModel / ShockModel / HybridPredictor

/-- Prophet wrapper state (engine.py lines 170-236). The numeric outcome of
predict is opaque (external capability): `predictResult = none` means the
predict call raises, `some v` means it returns `v`. -/
structure SeasonalityModel where
  predictResult : Option ℚ
  last_known_price : Option ℚ
deriving DecidableEq

/-- engine.py lines 225-236: return the forecast or fall back to the cached
last known price; with neither, the exception escapes (`none`). -/
def SeasonalityModel.get_trend_value (m : SeasonalityModel) : Option ℚ :=
  m.predictResult.orElse (fun _ => m.last_known_price)

/-- LSTM wrapper state (engine.py lines 240-360), same conventions. -/
structure ShockModel where
  predictResult : Option ℚ
  last_known_price : Option ℚ
  window : ℕ
deriving DecidableEq

/-- engine.py lines 350-360: ShockModel.get_correction. -/
def ShockModel.get_correction (m : ShockModel) : Option ℚ :=
  m.predictResult.orElse (fun _ => m.last_known_price)

/-- The training DataFrame kept by HybridPredictor: the price column `y` and
the optional auxiliary columns used by the anomaly scan. -/
structure PriceData where
  y : List ℚ
  rainfall : Option (List ℚ)
  demand : Option (List ℚ)
deriving DecidableEq

structure HybridPredictor where
  seasonality : SeasonalityModel
  shock : ShockModel
  data : Option PriceData
  trained : Bool
deriving DecidableEq

def PROPHET_WEIGHT : ℚ := 7/10

def LSTM_WEIGHT : ℚ := 3/10

/-- engine.py lines 366-372. -/
def DEFAULT_CROPS : List (String × String) :=
  [("wheat", "Wheat"), ("rice", "Rice"), ("tomato", "Tomato"),
   ("onion", "Onion"), ("potato", "Potato")]

def crop_display_name (crop_id : String) : String :=
  (DEFAULT_CROPS.lookup crop_id).getD (pyTitle crop_id)

/-- The `attribution` dict of _generate_xai_attribution. -/
structure Attribution where
  prophet_weight : ℚ
  lstm_weight : ℚ
  shock_factor : ℚ
  seasonal_contribution : ℚ
  anomaly_detected : String
deriving DecidableEq

structure XaiResult where
  insights : String
  attribution : Attribution
deriving DecidableEq

/-- pandas `iloc[-1]`, raising on an empty column. -/
def ilocLast (l : List ℚ) : Except String ℚ :=
  match l.getLast? with
  | some v => Except.ok v
  | none => Except.error "IndexError: single positional indexer is out-of-bounds"

/-- engine.py lines 582-660: HybridPredictor._generate_xai_attribution.
Numeral formatting inside insight strings is abstracted by `ratRepr`. -/
def HybridPredictor.generate_xai_attribution (p : HybridPredictor)
    (prophet_price lstm_price : ℚ) : Except String XaiResult := do
  let shock_factor : ℚ :=
    if prophet_price ≠ 0 then pyRound 4 (|lstm_price - prophet_price| / |prophet_price|)
    else 0
  let seasonal_contribution := pyRound 4 (1 - shock_factor)
  let rainPart : Option String ←
    match p.data with
    | none => pure none
    | some d =>
        match d.rainfall with
        | none => pure none
        | some l =>
            (ilocLast l).map (fun recent =>
              if npMean l > 0 ∧ recent < (80/100) * npMean l then
                some (ratRepr (pyRound 1 ((1 - recent / npMean l) * 100)) ++ "% rainfall deficit")
              else none)
  let demandHit : Bool ←
    match p.data with
    | none => pure false
    | some d =>
        match d.demand with
        | none => pure false
        | some l =>
            (ilocLast l).map (fun recent =>
              decide (npMean l > 0 ∧ recent > (120/100) * npMean l))
  let anomalies : List String :=
    (if rainPart.isSome then ["Low Precipitation"] else []) ++
      (if demandHit then ["High Demand Volatility"] else [])
  let insight_parts : List String :=
    (match rainPart with | some s => [s] | none => []) ++
      (if demandHit then ["high demand volatility"] else [])
  let anomaly_label := if anomalies.isEmpty then "None" else String.intercalate ", " anomalies
  let insight : String :=
    if ¬ insight_parts.isEmpty then
      "Price " ++ (if lstm_price ≥ prophet_price then "increase" else "decrease") ++
        " driven by " ++ String.intercalate " and " insight_parts ++ "."
    else if shock_factor > 15/100 then
      "Significant short-term price " ++
        (if lstm_price ≥ prophet_price then "increase" else "decrease") ++
        " detected (shock factor " ++ ratRepr shock_factor ++ "). " ++
        "No single input anomaly identified; " ++
        "likely a combination of minor market shifts."
    else
      "Price is within normal seasonal expectations. No significant anomalies detected."
  pure { insights := insight
         attribution :=
           { prophet_weight := PROPHET_WEIGHT
             lstm_weight := LSTM_WEIGHT
             shock_factor := shock_factor
             seasonal_contribution := seasonal_contribution
             anomaly_detected := anomaly_label } }

/-- Return shape of get_prediction (engine.py lines 568-578, xai dict merged in). -/
structure PredictionResult where
  crop_id : String
  crop_name : String
  hybrid_price : ℚ
  prophet_trend : ℚ
  lstm_correction : ℚ
  prophet_weight : ℚ
  lstm_weight : ℚ
  last_known_price : ℚ
  insights : String
  attribution : Attribution
deriving DecidableEq

/-- engine.py lines 515-578: HybridPredictor.get_prediction. -/
def HybridPredictor.get_prediction (p : HybridPredictor) (crop_id : String) :
    Except String PredictionResult :=
  match p.trained, p.data with
  | true, some d => do
      let last_known ← ilocLast d.y
      let prophet_trend := (p.seasonality.get_trend_value).getD last_known
      let lstm_correction := (p.shock.get_correction).getD last_known
      let hybrid_price := pyRound 2 (prophet_trend * PROPHET_WEIGHT + lstm_correction * LSTM_WEIGHT)
      let xai ← p.generate_xai_attribution prophet_trend lstm_correction
      pure { crop_id := crop_id
             crop_name := crop_display_name crop_id
             hybrid_price := hybrid_price
             prophet_trend := pyRound 2 prophet_trend
             lstm_correction := pyRound 2 lstm_correction
             prophet_weight := PROPHET_WEIGHT
             lstm_weight := LSTM_WEIGHT
             last_known_price := pyRound 2 last_known
             insights := xai.insights
             attribution := xai.attribution }
  | _, _ => Except.error "HybridPredictor has not been trained. Call train() first."

/-- Return shape of predict_hybrid (engine.py lines 497-511). -/
structure HybridLiveResult where
  crop_id : String
  crop_name : String
  current_price : ℚ
  predicted_price : ℚ
  bias_applied : ℚ
  prophet_trend : ℚ
  prophet_multiplier : ℚ
  lstm_correction : ℚ
  lstm_multiplier : ℚ
  prophet_weight : ℚ
  lstm_weight : ℚ
  last_known_training_price : ℚ
  insights : String
  attribution : Attribution
deriving DecidableEq

/-- engine.py lines 433-511: HybridPredictor.predict_hybrid. The Python
default `advisory_bias=1.0` is supplied explicitly by callers of the model. -/
def HybridPredictor.predict_hybrid (p : HybridPredictor) (crop_id : String)
    (current_price advisory_bias : ℚ) : Except String HybridLiveResult :=
  match p.trained, p.data with
  | true, some d => do
      let last_known ← ilocLast d.y
      let prophet_trend := (p.seasonality.get_trend_value).getD last_known
      let lstm_correction := (p.shock.get_correction).getD last_known
      let prophet_mult := if last_known > 0 then prophet_trend / last_known else 1
      let lstm_mult := if last_known > 0 then lstm_correction / last_known else 1
      let base_predicted := current_price * (prophet_mult * PROPHET_WEIGHT + lstm_mult * LSTM_WEIGHT)
      let predicted_price := pyRound 2 (base_predicted * advisory_bias)
      let xai ← p.generate_xai_attribution prophet_trend lstm_correction
      pure { crop_id := crop_id
             crop_name := crop_display_name crop_id
             current_price := pyRound 2 current_price
             predicted_price := predicted_price
             bias_applied := pyRound 4 advisory_bias
             prophet_trend := pyRound 2 prophet_trend
             prophet_multiplier := pyRound 4 prophet_mult
             lstm_correction := pyRound 2 lstm_correction
             lstm_multiplier := pyRound 4 lstm_mult
             prophet_weight := PROPHET_WEIGHT
             lstm_weight := LSTM_WEIGHT
             last_known_training_price := pyRound 2 last_known
             insights := xai.insights
             attribution := xai.attribution }
  | _, _ => Except.error "HybridPredictor has not been trained."

/-- Return shape of get_analytics (engine.py lines 701-713). -/
structure AnalyticsResult where
  confidence_score : ℚ
  shock_alert : Bool
  deviation_percent : ℚ
  prophet_trend : ℚ
  lstm_correction : ℚ
  data_points_used : ℕ
  lstm_window_days : ℕ
  model_weight_prophet : ℚ
  model_weight_lstm : ℚ
deriving DecidableEq

/-- engine.py lines 664-713: HybridPredictor.get_analytics. -/
def HybridPredictor.get_analytics (p : HybridPredictor) : Except String AnalyticsResult :=
  match p.trained, p.data with
  | true, some d => do
      let last_known ← ilocLast d.y
      let prophet_trend := (p.seasonality.get_trend_value).getD last_known
      let lstm_correction := (p.shock.get_correction).getD last_known
      let deviation_pct : ℚ :=
        if prophet_trend ≠ 0 then |lstm_correction - prophet_trend| / |prophet_trend| * 100
        else 0
      let shock_alert : Bool := deviation_pct > 15
      let confidence : ℚ := max 0 (min 100 (100 - deviation_pct))
      pure { confidence_score := pyRound 2 confidence
             shock_alert := shock_alert
             deviation_percent := pyRound 2 deviation_pct
             prophet_trend := pyRound 2 prophet_trend
             lstm_correction := pyRound 2 lstm_correction
             data_points_used := d.y.length
             lstm_window_days := p.shock.window
             model_weight_prophet := PROPHET_WEIGHT
             model_weight_lstm := LSTM_WEIGHT }
  | _, _ => Except.error "HybridPredictor not trained."

-- Derived accessors used to state the claims

/-- Last price of the training series (the `lastKnown` of the spec). -/
def HybridPredictor.trainingLast (p : HybridPredictor) : ℚ :=
  (match p.data with
   | some d => d.y.getLast?
   | none => none).getD 0

/-- The seasonal value entering the fusion after the fallback chain. -/
def HybridPredictor.resolvedProphet (p : HybridPredictor) : ℚ :=
  (p.seasonality.get_trend_value).getD p.trainingLast

/-- The shock value entering the fusion after the fallback chain. -/
def HybridPredictor.resolvedLstm (p : HybridPredictor) : ℚ :=
  (p.shock.get_correction).getD p.trainingLast

/-- A predictor on which train() has completed: flag set, data held, price
column non-empty, and any auxiliary column non-empty (train() derives all
columns from one non-empty DataFrame). -/
def HybridPredictor.wellTrained (p : HybridPredictor) : Bool :=
  p.trained &&
    (match p.data with
     | none => false
     | some d =>
         !d.y.isEmpty &&
           (match d.rainfall with | some l => !l.isEmpty | none => true) &&
           (match d.demand with | some l => !l.isEmpty | none => true))

-- federatedlearning.py: FederatedPricePredictor

def SUPPORTED_CROPS : List String := ["rubber", "tea", "coffee", "mango", "banana"]

def REGIONS : List String := ["Kottayam", "Idukki", "Ernakulam"]

/-- numpy in-place `layer_sum += w` on rank-1 operands: the right operand must
match the accumulator length or have length 1 (broadcast); anything else
raises a ValueError. -/
def addBroadcast (acc w : List ℚ) : Except String (List ℚ) :=
  if w.length = acc.length then Except.ok (List.zipWith (· + ·) acc w)
  else if w.length = 1 then Except.ok (acc.map (fun a => a + w.headD 0))
  else Except.error "ValueError: operands could not be broadcast together"

/-- The inner loop of federated_average: add layer `idx` of every region into
the accumulator (which starts as `np.zeros_like` of the first regional layer);
a region with too few layers raises an IndexError. -/
def sumLayer (wss : List (List (List ℚ))) (idx : ℕ) (acc : List ℚ) :
    Except String (List ℚ) :=
  match wss with
  | [] => Except.ok acc
  | ws :: rest =>
      match ws[idx]? with
      | none => Except.error "IndexError: list index out of range"
      | some w =>
          match addBroadcast acc w with
          | Except.ok acc2 => sumLayer rest idx acc2
          | Except.error e => Except.error e

/-- The outer loop of federated_average over layer indices. -/
def avgLoop (wss : List (List (List ℚ))) (firstW : List (List ℚ)) (n : ℚ) :
    List ℕ → Except String (List (List ℚ))
  | [] => Except.ok []
  | idx :: idxs =>
      match sumLayer wss idx ((firstW.getD idx []).map (fun _ => (0 : ℚ))) with
      | Except.error e => Except.error e
      | Except.ok s =>
          match avgLoop wss firstW n idxs with
          | Except.error e => Except.error e
          | Except.ok rest => Except.ok (s.map (fun q => q / n) :: rest)

/-- federatedlearning.py lines 220-245: FederatedPricePredictor.federated_average.
The regions dict is an insertion-ordered association list; the layer count is
taken from the first region, per `len(local_weights[regions[0]])`. -/
def federated_average (local_weights : List (String × List (List ℚ))) :
    Except String (List (List ℚ)) :=
  match local_weights with
  | [] => Except.error "IndexError: list index out of range"
  | first :: rest =>
      avgLoop ((first :: rest).map Prod.snd) first.2 ((first :: rest).length : ℚ)
        (List.range first.2.length)

/-- Return shape of recommend_best_region (federatedlearning.py lines 396-420). -/
structure RecommendationResult where
  crop : String
  current_location : String
  current_price : ℚ
  best_region : String
  expected_avg_price_next_7_days : ℚ
  price_difference : ℚ
  all_region_averages : List (String × ℚ)
  recommendation : String
deriving DecidableEq

/-- federatedlearning.py line 389: the per-region 7-day average,
`round(float(np.mean(data["forecast"][:7])), 2)`. -/
def avg7 (forecast : List ℚ) : ℚ := pyRound 2 (npMean (forecast.take 7))

/-- Python `max(avg_7d, key=avg_7d.get)` over a non-empty insertion-ordered
dict: fold keeping the current maximum, replacing only on strictly greater
values, so the first of tied maxima wins. -/
def pyMaxByVal (first : String × ℚ) (rest : List (String × ℚ)) : String × ℚ :=
  rest.foldl (fun b x => if x.2 > b.2 then x else b) first

/-- federatedlearning.py lines 347-420: FederatedPricePredictor.recommend_best_region.
The federated pipeline that produces `region_forecasts` (synthetic data plus
TensorFlow training, lines 381-383) is opaque training machinery; its output,
the per-region forecast dict in REGIONS insertion order, is taken as an
argument. -/
def recommend_best_region (crop : String) (current_price : ℚ)
    (current_location : String) (region_forecasts : List (String × List ℚ)) :
    Except String RecommendationResult :=
  let cropN := pyLower (pyStrip crop)
  if cropN ∉ SUPPORTED_CROPS then
    Except.error ("Unsupported crop \x27" ++ cropN ++ "\x27.")
  else
    let locN := pyTitle (pyStrip current_location)
    if locN ∉ REGIONS then
      Except.error ("Unknown region \x27" ++ locN ++ "\x27.")
    else
      let avg_7d := region_forecasts.map (fun rd => (rd.1, avg7 rd.2))
      match avg_7d with
      | [] => Except.error "ValueError: max() arg is an empty sequence"
      | a :: rest =>
          let best := pyMaxByVal a rest
          Except.ok
            { crop := cropN
              current_location := locN
              current_price := current_price
              best_region := best.1
              expected_avg_price_next_7_days := best.2
              price_difference := pyRound 2 (best.2 - current_price)
              all_region_averages := a :: rest
              recommendation :=
                if best.1 = locN then "Current location is optimal for selling"
                else "Sell in " ++ best.1 ++ " for higher expected returns" }

-- Supporting lemmas

lemma pyRound_intdiv (k : ℤ) (n : ℕ) : pyRound n ((k : ℚ) / 10 ^ n) = (k : ℚ) / 10 ^ n := by
  unfold pyRound
  have h10 : ((10 : ℚ) ^ n) ≠ 0 := by positivity
  rw [div_mul_cancel₀ _ h10]
  have : ⌊(k : ℚ) + 1/2⌋ = k := by
    rw [Int.floor_int_add]
    norm_num
  rw [this]

lemma pyRound_shape (n : ℕ) (x : ℚ) : ∃ k : ℤ, pyRound n x = (k : ℚ) / 10 ^ n :=
  ⟨⌊x * 10 ^ n + 1/2⌋, rfl⟩

/-- Rounding to 4 decimals is the identity on `1 - s` whenever `s` is itself a
4-decimal value, which is why `seasonal_contribution = 1 - shock_factor` holds
exactly in the code. -/
lemma pyRound_one_sub (n : ℕ) (x : ℚ) : pyRound n (1 - pyRound n x) = 1 - pyRound n x := by
  obtain ⟨k, hk⟩ := pyRound_shape n x
  rw [hk]
  have h10 : ((10 : ℚ) ^ n) ≠ 0 := by positivity
  have : (1 : ℚ) - (k : ℚ) / 10 ^ n = ((10 ^ n - k : ℤ) : ℚ) / 10 ^ n := by
    push_cast
    field_simp
  rw [this, pyRound_intdiv]

lemma pyRound_zero (n : ℕ) : pyRound n 0 = 0 := by
  unfold pyRound
  norm_num

lemma pyRound_one (n : ℕ) : pyRound n 1 = 1 := by
  have h10 : ((10 : ℚ) ^ n) ≠ 0 := by positivity
  have h : (1 : ℚ) = ((10 ^ n : ℤ) : ℚ) / 10 ^ n := by
    push_cast
    field_simp
  rw [h, pyRound_intdiv]

lemma getLast?_of_ne_nil {l : List ℚ} (h : l ≠ []) : ∃ v, l.getLast? = some v := by
  cases l with
  | nil => exact absurd rfl h
  | cons a as => exact ⟨(a :: as).getLast (by simp), List.getLast?_eq_getLast _ _⟩

/-- Auxiliary-column sanity: any rainfall/demand column held by the predictor
is non-empty (as produced by training on a non-empty DataFrame). -/
def HybridPredictor.colsOk (p : HybridPredictor) : Bool :=
  match p.data with
  | none => true
  | some d =>
      (match d.rainfall with | some l => !l.isEmpty | none => true) &&
        (match d.demand with | some l => !l.isEmpty | none => true)

lemma wellTrained_unpack {p : HybridPredictor} (h : p.wellTrained = true) :
    p.trained = true ∧ ∃ d, p.data = some d ∧ d.y ≠ [] ∧ p.colsOk = true := by
  cases p with
  | mk s sh data tr =>
      cases data with
      | none => simp [HybridPredictor.wellTrained] at h
      | some d =>
          cases d with
          | mk y rf dm =>
              simp only [HybridPredictor.wellTrained, Bool.and_eq_true] at h
              obtain ⟨h1, ⟨hy, hrf⟩, hdm⟩ := h
              refine ⟨h1, ⟨y, rf, dm⟩, rfl, ?_, ?_⟩
              · show y ≠ []
                intro h0
                rw [h0] at hy
                simp at hy
              · show HybridPredictor.colsOk ⟨s, sh, some ⟨y, rf, dm⟩, tr⟩ = true
                simp only [HybridPredictor.colsOk, Bool.and_eq_true]
                exact ⟨hrf, hdm⟩

lemma exceptMap_ok {A B : Type} (f : A → B) (a : A) :
    (Except.ok a : Except String A).map f = Except.ok (f a) := rfl

lemma exceptBind_ok {A B : Type} (a : A) (f : A → Except String B) :
    ((Except.ok a : Except String A) >>= f) = f a := rfl

lemma exceptPure {A : Type} (a : A) : (pure a : Except String A) = Except.ok a := rfl

/-- With sane auxiliary columns, the attribution step never raises and its
shock factor / seasonal contribution follow the source formulas. -/
lemma generate_xai_ok (p : HybridPredictor) (a b : ℚ) (h : p.colsOk = true) :
    ∃ x, p.generate_xai_attribution a b = Except.ok x ∧
      x.attribution.prophet_weight = PROPHET_WEIGHT ∧
      x.attribution.lstm_weight = LSTM_WEIGHT ∧
      x.attribution.shock_factor =
        (if a ≠ 0 then pyRound 4 (|b - a| / |a|) else 0) ∧
      x.attribution.seasonal_contribution =
        pyRound 4 (1 - (if a ≠ 0 then pyRound 4 (|b - a| / |a|) else 0)) := by
  cases p with
  | mk s sh data tr =>
      cases data with
      | none =>
          exact ⟨_, rfl, rfl, rfl, rfl, rfl⟩
      | some d =>
          cases d with
          | mk y rf dm =>
              simp only [HybridPredictor.colsOk, Bool.and_eq_true] at h
              obtain ⟨hrf, hdm⟩ := h
              cases rf with
              | none =>
                  cases dm with
                  | none => exact ⟨_, rfl, rfl, rfl, rfl, rfl⟩
                  | some ld =>
                      obtain ⟨v, hv⟩ : ∃ v, ld.getLast? = some v := by
                        apply getLast?_of_ne_nil
                        intro h0
                        rw [h0] at hdm
                        simp at hdm
                      simp only [HybridPredictor.generate_xai_attribution, ilocLast, hv,
                        exceptMap_ok, exceptBind_ok, exceptPure]
                      exact ⟨_, rfl, rfl, rfl, rfl, rfl⟩
              | some lr =>
                  obtain ⟨v, hv⟩ : ∃ v, lr.getLast? = some v := by
                    apply getLast?_of_ne_nil
                    intro h0
                    rw [h0] at hrf
                    simp at hrf
                  cases dm with
                  | none =>
                      simp only [HybridPredictor.generate_xai_attribution, ilocLast, hv,
                        exceptMap_ok, exceptBind_ok, exceptPure]
                      exact ⟨_, rfl, rfl, rfl, rfl, rfl⟩
                  | some ld =>
                      obtain ⟨w, hw⟩ : ∃ w, ld.getLast? = some w := by
                        apply getLast?_of_ne_nil
                        intro h0
                        rw [h0] at hdm
                        simp at hdm
                      simp only [HybridPredictor.generate_xai_attribution, ilocLast, hv, hw,
                        exceptMap_ok, exceptBind_ok, exceptPure]
                      exact ⟨_, rfl, rfl, rfl, rfl, rfl⟩

/-- Full description of get_prediction on a well-trained predictor: it
returns normally and fuses the fallback-resolved sub-model values. -/
lemma get_prediction_ok (p : HybridPredictor) (c : String) (h : p.wellTrained = true) :
    ∃ r, p.get_prediction c = Except.ok r ∧
      r.hybrid_price =
        pyRound 2 (p.resolvedProphet * PROPHET_WEIGHT + p.resolvedLstm * LSTM_WEIGHT) ∧
      r.prophet_trend = pyRound 2 p.resolvedProphet ∧
      r.lstm_correction = pyRound 2 p.resolvedLstm := by
  obtain ⟨htr, d, hd, hy, hcols⟩ := wellTrained_unpack h
  obtain ⟨v, hv⟩ := getLast?_of_ne_nil hy
  cases p with
  | mk s sh data tr =>
      cases htr
      cases hd
      obtain ⟨x, hx, -, -, -, -⟩ :=
        generate_xai_ok ⟨s, sh, some d, true⟩
          ((SeasonalityModel.get_trend_value s).getD v)
          ((ShockModel.get_correction sh).getD v) hcols
      have hred : HybridPredictor.get_prediction ⟨s, sh, some d, true⟩ c = Except.ok
          { crop_id := c
            crop_name := crop_display_name c
            hybrid_price := pyRound 2 ((s.get_trend_value.getD v) * PROPHET_WEIGHT +
              (sh.get_correction.getD v) * LSTM_WEIGHT)
            prophet_trend := pyRound 2 (s.get_trend_value.getD v)
            lstm_correction := pyRound 2 (sh.get_correction.getD v)
            prophet_weight := PROPHET_WEIGHT
            lstm_weight := LSTM_WEIGHT
            last_known_price := pyRound 2 v
            insights := x.insights
            attribution := x.attribution } := by
        simp only [HybridPredictor.get_prediction, ilocLast, hv, exceptBind_ok, exceptPure]
        rw [hx]
        rfl
      refine ⟨_, hred, ?_, ?_, ?_⟩ <;>
        simp only [HybridPredictor.resolvedProphet, HybridPredictor.resolvedLstm,
          HybridPredictor.trainingLast, hv, Option.getD_some]

/-- Full description of predict_hybrid on a well-trained predictor. -/
lemma predict_hybrid_ok (p : HybridPredictor) (c : String) (cp bias : ℚ)
    (h : p.wellTrained = true) :
    ∃ r, p.predict_hybrid c cp bias = Except.ok r ∧
      r.predicted_price = pyRound 2 (cp *
        ((if p.trainingLast > 0 then p.resolvedProphet / p.trainingLast else 1) * PROPHET_WEIGHT +
          (if p.trainingLast > 0 then p.resolvedLstm / p.trainingLast else 1) * LSTM_WEIGHT) *
        bias) := by
  obtain ⟨htr, d, hd, hy, hcols⟩ := wellTrained_unpack h
  obtain ⟨v, hv⟩ := getLast?_of_ne_nil hy
  cases p with
  | mk s sh data tr =>
      cases htr
      cases hd
      obtain ⟨x, hx, -, -, -, -⟩ :=
        generate_xai_ok ⟨s, sh, some d, true⟩
          ((SeasonalityModel.get_trend_value s).getD v)
          ((ShockModel.get_correction sh).getD v) hcols
      have hred : HybridPredictor.predict_hybrid ⟨s, sh, some d, true⟩ c cp bias = Except.ok
          { crop_id := c
            crop_name := crop_display_name c
            current_price := pyRound 2 cp
            predicted_price := pyRound 2 (cp *
              ((if v > 0 then (s.get_trend_value.getD v) / v else 1) * PROPHET_WEIGHT +
                (if v > 0 then (sh.get_correction.getD v) / v else 1) * LSTM_WEIGHT) * bias)
            bias_applied := pyRound 4 bias
            prophet_trend := pyRound 2 (s.get_trend_value.getD v)
            prophet_multiplier := pyRound 4 (if v > 0 then (s.get_trend_value.getD v) / v else 1)
            lstm_correction := pyRound 2 (sh.get_correction.getD v)
            lstm_multiplier := pyRound 4 (if v > 0 then (sh.get_correction.getD v) / v else 1)
            prophet_weight := PROPHET_WEIGHT
            lstm_weight := LSTM_WEIGHT
            last_known_training_price := pyRound 2 v
            insights := x.insights
            attribution := x.attribution } := by
        simp only [HybridPredictor.predict_hybrid, ilocLast, hv, exceptBind_ok, exceptPure]
        rw [hx]
        rfl
      refine ⟨_, hred, ?_⟩
      simp only [HybridPredictor.resolvedProphet, HybridPredictor.resolvedLstm,
        HybridPredictor.trainingLast, hv, Option.getD_some]

/-- Full description of get_analytics on a well-trained predictor. -/
lemma get_analytics_ok (p : HybridPredictor) (h : p.wellTrained = true) :
    ∃ r, p.get_analytics = Except.ok r ∧
      r.shock_alert = decide ((if p.resolvedProphet ≠ 0 then
          |p.resolvedLstm - p.resolvedProphet| / |p.resolvedProphet| * 100 else 0) > 15) ∧
      r.confidence_score = pyRound 2 (max 0 (min 100 (100 -
        (if p.resolvedProphet ≠ 0 then
          |p.resolvedLstm - p.resolvedProphet| / |p.resolvedProphet| * 100 else 0)))) ∧
      r.deviation_percent = pyRound 2 (if p.resolvedProphet ≠ 0 then
          |p.resolvedLstm - p.resolvedProphet| / |p.resolvedProphet| * 100 else 0) := by
  obtain ⟨htr, d, hd, hy, hcols⟩ := wellTrained_unpack h
  obtain ⟨v, hv⟩ := getLast?_of_ne_nil hy
  cases p with
  | mk s sh data tr =>
      cases htr
      cases hd
      have hred : HybridPredictor.get_analytics ⟨s, sh, some d, true⟩ = Except.ok
          { confidence_score := pyRound 2 (max 0 (min 100 (100 -
              (if (s.get_trend_value.getD v) ≠ 0 then
                |(sh.get_correction.getD v) - (s.get_trend_value.getD v)| /
                  |(s.get_trend_value.getD v)| * 100 else 0))))
            shock_alert := decide ((if (s.get_trend_value.getD v) ≠ 0 then
                |(sh.get_correction.getD v) - (s.get_trend_value.getD v)| /
                  |(s.get_trend_value.getD v)| * 100 else 0) > 15)
            deviation_percent := pyRound 2 (if (s.get_trend_value.getD v) ≠ 0 then
                |(sh.get_correction.getD v) - (s.get_trend_value.getD v)| /
                  |(s.get_trend_value.getD v)| * 100 else 0)
            prophet_trend := pyRound 2 (s.get_trend_value.getD v)
            lstm_correction := pyRound 2 (sh.get_correction.getD v)
            data_points_used := d.y.length
            lstm_window_days := sh.window
            model_weight_prophet := PROPHET_WEIGHT
            model_weight_lstm := LSTM_WEIGHT } := by
        simp only [HybridPredictor.get_analytics, ilocLast, hv, exceptBind_ok, exceptPure]
      refine ⟨_, hred, ?_, ?_, ?_⟩ <;>
        simp only [HybridPredictor.resolvedProphet, HybridPredictor.resolvedLstm,
          HybridPredictor.trainingLast, hv, Option.getD_some]

-- Claim theorems: HybridPredictor

/-- C1 counterexample: a trained predictor with seasonal value 1 and shock
value 1/100 returns hybrid_price 0.70, while the exact weighted fusion is
0.703 — the returned price is the fusion rounded to 2 decimals, not the
fusion itself. -/
theorem C1_exact_fusion_counterexample :
    (HybridPredictor.get_prediction
        ⟨⟨some 1, some 1⟩, ⟨some (1/100), some 1, 30⟩, some ⟨[1], none, none⟩, true⟩
        "wheat").map (fun r => r.hybrid_price) = Except.ok (7/10) ∧
      (7/10 : ℚ) ≠ 1 * (7/10) + (1/100) * (3/10) := by
  obtain ⟨r, hr, hhp, -, -⟩ := get_prediction_ok
    ⟨⟨some 1, some 1⟩, ⟨some (1/100), some 1, 30⟩, some ⟨[1], none, none⟩, true⟩
    "wheat" (by decide)
  constructor
  · rw [hr]
    simp only [Except.map]
    rw [hhp]
    simp only [HybridPredictor.resolvedProphet, HybridPredictor.resolvedLstm,
      HybridPredictor.trainingLast, SeasonalityModel.get_trend_value,
      ShockModel.get_correction, Option.orElse, PROPHET_WEIGHT, LSTM_WEIGHT]
    norm_num [pyRound]
  · norm_num

/-- C1 (amended): for every trained predictor, get_prediction returns
normally and hybrid_price equals the weighted fusion
prophet_trend*0.7 + lstm_correction*0.3 rounded to 2 decimal places. -/
theorem C1_hybrid_price_rounded_fusion (p : HybridPredictor) (c : String)
    (h : p.wellTrained = true) :
    ∃ r, p.get_prediction c = Except.ok r ∧
      r.hybrid_price = pyRound 2 (p.resolvedProphet * (7/10) + p.resolvedLstm * (3/10)) := by
  obtain ⟨r, hr, hhp, -, -⟩ := get_prediction_ok p c h
  exact ⟨r, hr, by simpa [PROPHET_WEIGHT, LSTM_WEIGHT] using hhp⟩

/-- C1 witness: the amended theorem applied to a concrete trained predictor. -/
theorem C1_hybrid_price_rounded_fusion_witness :
    ∃ r, HybridPredictor.get_prediction
        ⟨⟨some 2600, some 2500⟩, ⟨some 2400, some 2500, 30⟩, some ⟨[2500], none, none⟩, true⟩
        "wheat" = Except.ok r ∧
      r.hybrid_price = pyRound 2
        ((HybridPredictor.resolvedProphet
            ⟨⟨some 2600, some 2500⟩, ⟨some 2400, some 2500, 30⟩, some ⟨[2500], none, none⟩, true⟩) * (7/10) +
          (HybridPredictor.resolvedLstm
            ⟨⟨some 2600, some 2500⟩, ⟨some 2400, some 2500, 30⟩, some ⟨[2500], none, none⟩, true⟩) * (3/10)) :=
  C1_hybrid_price_rounded_fusion
    ⟨⟨some 2600, some 2500⟩, ⟨some 2400, some 2500, 30⟩, some ⟨[2500], none, none⟩, true⟩
    "wheat" (by decide)

/-- C2: on a trained predictor, a raising sub-model never propagates an
exception out of get_prediction; the failed sub-model value is replaced by
the last-known price (the sub-model cache when present, else the training
series last price). -/
theorem C2_submodel_failure_fallback (p : HybridPredictor) (c : String)
    (h : p.wellTrained = true) :
    ∃ r, p.get_prediction c = Except.ok r ∧
      (p.seasonality.predictResult = none →
        r.prophet_trend = pyRound 2 ((p.seasonality.last_known_price).getD p.trainingLast)) ∧
      (p.shock.predictResult = none →
        r.lstm_correction = pyRound 2 ((p.shock.last_known_price).getD p.trainingLast)) := by
  obtain ⟨r, hr, -, hpt, hlc⟩ := get_prediction_ok p c h
  refine ⟨r, hr, ?_, ?_⟩
  · intro hfail
    rw [hpt]
    simp only [HybridPredictor.resolvedProphet, SeasonalityModel.get_trend_value, hfail]
    cases p.seasonality.last_known_price <;> simp [Option.orElse]
  · intro hfail
    rw [hlc]
    simp only [HybridPredictor.resolvedLstm, ShockModel.get_correction, hfail]
    cases p.shock.last_known_price <;> simp [Option.orElse]

/-- C2 witness: a trained predictor whose shock model raises on predict. -/
theorem C2_submodel_failure_fallback_witness :
    ∃ r, HybridPredictor.get_prediction
        ⟨⟨some 2, some 2⟩, ⟨none, some 5, 30⟩, some ⟨[5], none, none⟩, true⟩
        "rice" = Except.ok r ∧
      ((⟨⟨some 2, some 2⟩, ⟨none, some 5, 30⟩, some ⟨[5], none, none⟩, true⟩ :
          HybridPredictor).seasonality.predictResult = none →
        r.prophet_trend = pyRound 2 (((⟨⟨some 2, some 2⟩, ⟨none, some 5, 30⟩,
          some ⟨[5], none, none⟩, true⟩ :
            HybridPredictor).seasonality.last_known_price).getD
          (HybridPredictor.trainingLast ⟨⟨some 2, some 2⟩, ⟨none, some 5, 30⟩,
            some ⟨[5], none, none⟩, true⟩))) ∧
      ((⟨⟨some 2, some 2⟩, ⟨none, some 5, 30⟩, some ⟨[5], none, none⟩, true⟩ :
          HybridPredictor).shock.predictResult = none →
        r.lstm_correction = pyRound 2 (((⟨⟨some 2, some 2⟩, ⟨none, some 5, 30⟩,
          some ⟨[5], none, none⟩, true⟩ :
            HybridPredictor).shock.last_known_price).getD
          (HybridPredictor.trainingLast ⟨⟨some 2, some 2⟩, ⟨none, some 5, 30⟩,
            some ⟨[5], none, none⟩, true⟩))) :=
  C2_submodel_failure_fallback
    ⟨⟨some 2, some 2⟩, ⟨none, some 5, 30⟩, some ⟨[5], none, none⟩, true⟩
    "rice" (by decide)

/-- C6 counterexample: with training baseline 3 and both sub-model values 1,
live price 1, neutral bias, the formula value is 1/3 but predict_hybrid
returns 0.33 — the formula value rounded to 2 decimals. -/
theorem C6_exact_rebase_counterexample :
    (HybridPredictor.predict_hybrid
        ⟨⟨some 1, some 3⟩, ⟨some 1, some 3, 30⟩, some ⟨[3], none, none⟩, true⟩
        "wheat" 1 1).map (fun r => r.predicted_price) = Except.ok (33/100) ∧
      (33/100 : ℚ) ≠ 1 * ((1/3) * (7/10) + (1/3) * (3/10)) * 1 := by
  obtain ⟨r, hr, hpp⟩ := predict_hybrid_ok
    ⟨⟨some 1, some 3⟩, ⟨some 1, some 3, 30⟩, some ⟨[3], none, none⟩, true⟩
    "wheat" 1 1 (by decide)
  constructor
  · rw [hr]
    simp only [Except.map]
    rw [hpp]
    simp only [HybridPredictor.resolvedProphet, HybridPredictor.resolvedLstm,
      HybridPredictor.trainingLast, SeasonalityModel.get_trend_value,
      ShockModel.get_correction, Option.orElse, PROPHET_WEIGHT, LSTM_WEIGHT]
    norm_num [pyRound]
  · norm_num

/-- C6 (amended): for every trained predictor, predict_hybrid returns
normally and predicted_price equals
current_price * (seasonal_mult*0.7 + shock_mult*0.3) * advisory_bias rounded
to 2 decimals, the multipliers defaulting to 1.0 whenever the training
baseline is non-positive. -/
theorem C6_predict_hybrid_rounded (p : HybridPredictor) (c : String) (cp bias : ℚ)
    (h : p.wellTrained = true) :
    ∃ r, p.predict_hybrid c cp bias = Except.ok r ∧
      r.predicted_price = pyRound 2 (cp *
        ((if p.trainingLast > 0 then p.resolvedProphet / p.trainingLast else 1) * (7/10) +
          (if p.trainingLast > 0 then p.resolvedLstm / p.trainingLast else 1) * (3/10)) *
        bias) := by
  obtain ⟨r, hr, hpp⟩ := predict_hybrid_ok p c cp bias h
  exact ⟨r, hr, by simpa [PROPHET_WEIGHT, LSTM_WEIGHT] using hpp⟩

/-- C6 witness: the amended theorem at a concrete predictor with a
non-positive training baseline (multipliers default to 1). -/
theorem C6_predict_hybrid_rounded_witness :
    ∃ r, HybridPredictor.predict_hybrid
        ⟨⟨some 4, some 0⟩, ⟨some 6, some 0, 30⟩, some ⟨[0], none, none⟩, true⟩
        "rubber" 5 2 = Except.ok r ∧
      r.predicted_price = pyRound 2 ((5 : ℚ) *
        ((if HybridPredictor.trainingLast
              ⟨⟨some 4, some 0⟩, ⟨some 6, some 0, 30⟩, some ⟨[0], none, none⟩, true⟩ > 0 then
            HybridPredictor.resolvedProphet
              ⟨⟨some 4, some 0⟩, ⟨some 6, some 0, 30⟩, some ⟨[0], none, none⟩, true⟩ /
              HybridPredictor.trainingLast
                ⟨⟨some 4, some 0⟩, ⟨some 6, some 0, 30⟩, some ⟨[0], none, none⟩, true⟩
          else 1) * (7/10) +
          (if HybridPredictor.trainingLast
              ⟨⟨some 4, some 0⟩, ⟨some 6, some 0, 30⟩, some ⟨[0], none, none⟩, true⟩ > 0 then
            HybridPredictor.resolvedLstm
              ⟨⟨some 4, some 0⟩, ⟨some 6, some 0, 30⟩, some ⟨[0], none, none⟩, true⟩ /
              HybridPredictor.trainingLast
                ⟨⟨some 4, some 0⟩, ⟨some 6, some 0, 30⟩, some ⟨[0], none, none⟩, true⟩
          else 1) * (3/10)) * 2) :=
  C6_predict_hybrid_rounded
    ⟨⟨some 4, some 0⟩, ⟨some 6, some 0, 30⟩, some ⟨[0], none, none⟩, true⟩
    "rubber" 5 2 (by decide)

/-- C7 counterexample: seasonal 3, shock 2 give exact deviation 100/3 percent;
the claim says confidence equals clamp(100 - deviation) = 200/3, but the code
returns that value rounded to 2 decimals, 66.67. -/
theorem C7_confidence_rounding_counterexample :
    (HybridPredictor.get_analytics
        ⟨⟨some 3, some 3⟩, ⟨some 2, some 3, 30⟩, some ⟨[3], none, none⟩, true⟩).map
        (fun r => r.confidence_score) = Except.ok (6667/100) ∧
      (6667/100 : ℚ) ≠ max 0 (min 100 (100 - |(2 : ℚ) - 3| / |(3 : ℚ)| * 100)) := by
  obtain ⟨r, hr, -, hconf, -⟩ := get_analytics_ok
    ⟨⟨some 3, some 3⟩, ⟨some 2, some 3, 30⟩, some ⟨[3], none, none⟩, true⟩ (by decide)
  constructor
  · rw [hr]
    simp only [Except.map]
    rw [hconf]
    simp only [HybridPredictor.resolvedProphet, HybridPredictor.resolvedLstm,
      HybridPredictor.trainingLast, SeasonalityModel.get_trend_value,
      ShockModel.get_correction, Option.orElse]
    simp only [List.getLast?_singleton, Option.getD_some]
    rw [if_pos (by norm_num)]
    rw [show |(2 : ℚ) - 3| = 1 by rw [show (2 : ℚ) - 3 = -1 by norm_num, abs_neg, abs_one]]
    rw [show |(3 : ℚ)| = 3 from abs_of_pos (by norm_num)]
    rw [show (100 : ℚ) - 1 / 3 * 100 = 200/3 by norm_num]
    rw [min_eq_right (by norm_num), max_eq_right (by norm_num)]
    norm_num [pyRound]
  · rw [show |(2 : ℚ) - 3| = 1 by rw [show (2 : ℚ) - 3 = -1 by norm_num, abs_neg, abs_one]]
    rw [show |(3 : ℚ)| = 3 from abs_of_pos (by norm_num)]
    rw [show (100 : ℚ) - 1 / 3 * 100 = 200/3 by norm_num]
    rw [min_eq_right (by norm_num), max_eq_right (by norm_num)]
    norm_num

/-- C7 (amended): for every trained predictor, get_analytics returns
normally; shock_alert holds iff the exact deviation percent exceeds 15
(15 itself gives false), and confidence_score equals
clamp(100 - deviation, 0, 100) rounded to 2 decimals. -/
theorem C7_analytics_alert_confidence (p : HybridPredictor)
    (h : p.wellTrained = true) :
    ∃ r, p.get_analytics = Except.ok r ∧
      (r.shock_alert = true ↔ (if p.resolvedProphet ≠ 0 then
          |p.resolvedLstm - p.resolvedProphet| / |p.resolvedProphet| * 100 else 0) > 15) ∧
      r.confidence_score = pyRound 2 (max 0 (min 100 (100 -
        (if p.resolvedProphet ≠ 0 then
          |p.resolvedLstm - p.resolvedProphet| / |p.resolvedProphet| * 100 else 0)))) := by
  obtain ⟨r, hr, halert, hconf, -⟩ := get_analytics_ok p h
  refine ⟨r, hr, ?_, hconf⟩
  rw [halert]
  exact decide_eq_true_iff

/-- C7 witness: the amended theorem at a concrete predictor whose deviation
is exactly 15 percent (boundary: no alert). -/
theorem C7_analytics_alert_confidence_witness :
    ∃ r, HybridPredictor.get_analytics
        ⟨⟨some 100, some 100⟩, ⟨some 115, some 100, 30⟩, some ⟨[100], none, none⟩, true⟩ =
        Except.ok r ∧
      (r.shock_alert = true ↔ (if HybridPredictor.resolvedProphet
            ⟨⟨some 100, some 100⟩, ⟨some 115, some 100, 30⟩, some ⟨[100], none, none⟩, true⟩ ≠ 0 then
          |HybridPredictor.resolvedLstm
              ⟨⟨some 100, some 100⟩, ⟨some 115, some 100, 30⟩, some ⟨[100], none, none⟩, true⟩ -
            HybridPredictor.resolvedProphet
              ⟨⟨some 100, some 100⟩, ⟨some 115, some 100, 30⟩, some ⟨[100], none, none⟩, true⟩| /
            |HybridPredictor.resolvedProphet
              ⟨⟨some 100, some 100⟩, ⟨some 115, some 100, 30⟩, some ⟨[100], none, none⟩, true⟩| * 100
          else 0) > 15) ∧
      r.confidence_score = pyRound 2 (max 0 (min 100 (100 -
        (if HybridPredictor.resolvedProphet
            ⟨⟨some 100, some 100⟩, ⟨some 115, some 100, 30⟩, some ⟨[100], none, none⟩, true⟩ ≠ 0 then
          |HybridPredictor.resolvedLstm
              ⟨⟨some 100, some 100⟩, ⟨some 115, some 100, 30⟩, some ⟨[100], none, none⟩, true⟩ -
            HybridPredictor.resolvedProphet
              ⟨⟨some 100, some 100⟩, ⟨some 115, some 100, 30⟩, some ⟨[100], none, none⟩, true⟩| /
            |HybridPredictor.resolvedProphet
              ⟨⟨some 100, some 100⟩, ⟨some 115, some 100, 30⟩, some ⟨[100], none, none⟩, true⟩| * 100
          else 0)))) :=
  C7_analytics_alert_confidence
    ⟨⟨some 100, some 100⟩, ⟨some 115, some 100, 30⟩, some ⟨[100], none, none⟩, true⟩
    (by decide)

/-- C8: for every (seasonal, shock) pair the attribution record has
shock_factor = |shock - seasonal| / |seasonal| rounded to 4 decimals (0 when
seasonal is 0, 0 when the values agree), and seasonal_contribution equals
1 - shock_factor exactly. -/
theorem C8_attribution_shock_factor (p : HybridPredictor) (a b : ℚ)
    (h : p.colsOk = true) :
    ∃ x, p.generate_xai_attribution a b = Except.ok x ∧
      x.attribution.shock_factor = (if a = 0 then 0 else pyRound 4 (|b - a| / |a|)) ∧
      (b = a → x.attribution.shock_factor = 0) ∧
      x.attribution.seasonal_contribution = 1 - x.attribution.shock_factor := by
  obtain ⟨x, hx, -, -, hsf, hsc⟩ := generate_xai_ok p a b h
  by_cases ha : a = 0
  · refine ⟨x, hx, ?_, ?_, ?_⟩
    · rw [hsf]
      simp [ha]
    · intro _
      rw [hsf]
      simp [ha]
    · rw [hsc, hsf]
      simp only [ha, ne_eq, not_true_eq_false, if_false, ite_false]
      simpa using pyRound_one 4
  · refine ⟨x, hx, ?_, ?_, ?_⟩
    · rw [hsf]
      simp [ha]
    · intro hba
      rw [hsf]
      simp only [ha, ne_eq, not_false_eq_true, if_true, ite_true, hba]
      simpa [sub_self] using pyRound_zero 4
    · rw [hsc, hsf]
      simp only [ha, ne_eq, not_false_eq_true, if_true, ite_true]
      exact pyRound_one_sub 4 _

/-- C8 witness: the theorem at seasonal 2, shock 3 on a predictor with no
auxiliary columns. -/
theorem C8_attribution_shock_factor_witness :
    ∃ x, HybridPredictor.generate_xai_attribution
        ⟨⟨none, none⟩, ⟨none, none, 30⟩, none, false⟩ 2 3 = Except.ok x ∧
      x.attribution.shock_factor = (if (2 : ℚ) = 0 then 0 else pyRound 4 (|(3 : ℚ) - 2| / |(2 : ℚ)|)) ∧
      ((3 : ℚ) = 2 → x.attribution.shock_factor = 0) ∧
      x.attribution.seasonal_contribution = 1 - x.attribution.shock_factor :=
  C8_attribution_shock_factor ⟨⟨none, none⟩, ⟨none, none, 30⟩, none, false⟩ 2 3 (by decide)

/-- C9 witness: the unknown-crop theorem at a concrete crop id and weather
snapshot, with the absence hypothesis checked by evaluation. -/
theorem advisory_unknown_crop_witness :
    CROP_KNOWLEDGE.lookup (underscoreToSpace (pyLower (pyStrip "dragonfruit"))) = none ∧
      evaluate "dragonfruit" [("temp", 25)] =
        { triggered := false
          biological_risk_alert := false
          bias := 1
          insight := "No agronomic rules defined for \x27dragonfruit\x27."
          rule_used := "none"
          metric_value := none } :=
  ⟨by decide, advisory_unknown_crop "dragonfruit" [("temp", 25)] (by decide)⟩

-- Claim theorems: federated averaging

lemma zipWith_add_getD (a : List ℚ) :
    ∀ (b : List ℚ), a.length = b.length → ∀ (j : ℕ),
      (List.zipWith (· + ·) a b).getD j 0 = a.getD j 0 + b.getD j 0 := by
  induction a with
  | nil =>
      intro b hb j
      cases b with
      | nil => simp
      | cons x xs => simp at hb
  | cons x xs ih =>
      intro b hb j
      cases b with
      | nil => simp at hb
      | cons y ys =>
          cases j with
          | zero => simp
          | succ k =>
              simp only [List.zipWith_cons_cons, List.getD_cons_succ]
              exact ih ys (by simpa using hb) k

lemma map_div_getD (s : List ℚ) (n : ℚ) :
    ∀ (j : ℕ), ((s.map (fun q => q / n)).getD j 0) = (s.getD j 0) / n := by
  induction s with
  | nil =>
      intro j
      simp
  | cons x xs ih =>
      intro j
      cases j with
      | zero => simp
      | succ k => simpa using ih k

lemma map_zero_getD (l : List ℚ) : ∀ (j : ℕ), ((l.map (fun _ => (0 : ℚ))).getD j 0) = 0 := by
  induction l with
  | nil =>
      intro j
      simp
  | cons x xs ih =>
      intro j
      cases j with
      | zero => simp
      | succ k =>
          simp only [List.map_cons, List.getD_cons_succ]
          exact ih k

/-- The pure value computed by sumLayer when it succeeds. -/
def sumAt (wss : List (List (List ℚ))) (idx : ℕ) (acc : List ℚ) : List ℚ :=
  wss.foldl (fun a ws => List.zipWith (· + ·) a (ws.getD idx [])) acc

lemma sumLayer_eq (idx : ℕ) :
    ∀ (wss : List (List (List ℚ))) (acc : List ℚ),
      (∀ ws ∈ wss, ∃ w, ws[idx]? = some w ∧ w.length = acc.length) →
      sumLayer wss idx acc = Except.ok (sumAt wss idx acc) ∧
        (sumAt wss idx acc).length = acc.length := by
  intro wss
  induction wss with
  | nil =>
      intro acc _
      exact ⟨rfl, rfl⟩
  | cons ws rest ih =>
      intro acc h
      obtain ⟨w, hw, hwl⟩ := h ws (List.mem_cons_self ws rest)
      have hwd : ws.getD idx [] = w := by
        rw [List.getD_eq_getElem?_getD, hw, Option.getD_some]
      have hacc2 : (List.zipWith (· + ·) acc w).length = acc.length := by
        rw [List.length_zipWith, hwl, Nat.min_self]
      have hrest : ∀ ws2 ∈ rest, ∃ w2, ws2[idx]? = some w2 ∧
          w2.length = (List.zipWith (· + ·) acc w).length := by
        intro ws2 hm
        obtain ⟨w2, hw2, hw2l⟩ := h ws2 (List.mem_cons_of_mem ws hm)
        exact ⟨w2, hw2, by rw [hacc2, hw2l]⟩
      obtain ⟨ihok, ihlen⟩ := ih (List.zipWith (· + ·) acc w) hrest
      have hstep : sumAt (ws :: rest) idx acc = sumAt rest idx (List.zipWith (· + ·) acc w) := by
        simp only [sumAt, List.foldl_cons, hwd]
      have haddb : addBroadcast acc w = Except.ok (List.zipWith (· + ·) acc w) := by
        rw [addBroadcast, if_pos hwl]
      constructor
      · rw [hstep]
        simp only [sumLayer, hw]
        rw [haddb]
        exact ihok
      · rw [hstep, ihlen, hacc2]

lemma sumAt_getD (idx : ℕ) :
    ∀ (wss : List (List (List ℚ))) (acc : List ℚ),
      (∀ ws ∈ wss, ∃ w, ws[idx]? = some w ∧ w.length = acc.length) →
      ∀ j, (sumAt wss idx acc).getD j 0 =
        acc.getD j 0 + (wss.map (fun ws => (ws.getD idx []).getD j 0)).sum := by
  intro wss
  induction wss with
  | nil =>
      intro acc _ j
      simp [sumAt]
  | cons ws rest ih =>
      intro acc h j
      obtain ⟨w, hw, hwl⟩ := h ws (List.mem_cons_self ws rest)
      have hwd : ws.getD idx [] = w := by
        rw [List.getD_eq_getElem?_getD, hw, Option.getD_some]
      have hacc2 : (List.zipWith (· + ·) acc w).length = acc.length := by
        rw [List.length_zipWith, hwl, Nat.min_self]
      have hrest : ∀ ws2 ∈ rest, ∃ w2, ws2[idx]? = some w2 ∧
          w2.length = (List.zipWith (· + ·) acc w).length := by
        intro ws2 hm
        obtain ⟨w2, hw2, hw2l⟩ := h ws2 (List.mem_cons_of_mem ws hm)
        exact ⟨w2, hw2, by rw [hacc2, hw2l]⟩
      have hstep : sumAt (ws :: rest) idx acc = sumAt rest idx (List.zipWith (· + ·) acc w) := by
        simp only [sumAt, List.foldl_cons, hwd]
      rw [hstep, ih (List.zipWith (· + ·) acc w) hrest j,
        zipWith_add_getD acc w hwl.symm j, List.map_cons, List.sum_cons, hwd]
      ring

lemma avgLoop_eq (wss : List (List (List ℚ))) (firstW : List (List ℚ)) (n : ℚ) :
    ∀ (idxs : List ℕ),
      (∀ idx ∈ idxs, sumLayer wss idx ((firstW.getD idx []).map (fun _ => (0 : ℚ))) =
        Except.ok (sumAt wss idx ((firstW.getD idx []).map (fun _ => (0 : ℚ))))) →
      avgLoop wss firstW n idxs = Except.ok
        (idxs.map (fun idx =>
          (sumAt wss idx ((firstW.getD idx []).map (fun _ => (0 : ℚ)))).map (fun q => q / n))) := by
  intro idxs
  induction idxs with
  | nil =>
      intro _
      rfl
  | cons idx rest ih =>
      intro h
      have h0 := h idx (List.mem_cons_self idx rest)
      have hrest := ih (fun i hi => h i (List.mem_cons_of_mem idx hi))
      simp only [avgLoop, h0, hrest, List.map_cons]

/-- C4: for every non-empty region map whose per-layer tensors agree in
layer count and shape, federated_average returns, at each layer index, the
element-wise arithmetic mean over the regions. -/
theorem C4_fedavg_elementwise_mean (r0 : String × List (List ℚ))
    (rs : List (String × List (List ℚ)))
    (hlen : ∀ p ∈ r0 :: rs, p.2.length = r0.2.length)
    (hshape : ∀ p ∈ r0 :: rs, ∀ i, i < r0.2.length →
      (p.2.getD i []).length = (r0.2.getD i []).length) :
    ∃ g, federated_average (r0 :: rs) = Except.ok g ∧
      g.length = r0.2.length ∧
      ∀ i, i < r0.2.length → ∀ j,
        (g.getD i []).getD j 0 =
          ((r0 :: rs).map (fun p => ((p.2.getD i []).getD j 0))).sum /
            ((r0 :: rs).length : ℚ) := by
  have hcond : ∀ idx, idx < r0.2.length → ∀ ws ∈ (r0 :: rs).map Prod.snd,
      ∃ w, ws[idx]? = some w ∧
        w.length = ((r0.2.getD idx []).map (fun _ => (0 : ℚ))).length := by
    intro idx hidx ws hmem
    obtain ⟨p, hp, hws⟩ := List.mem_map.mp hmem
    subst hws
    have hplen : idx < p.2.length := by
      rw [hlen p hp]
      exact hidx
    refine ⟨p.2.getD idx [], ?_, ?_⟩
    · rw [List.getElem?_eq_getElem hplen]
      rw [List.getD_eq_getElem _ _ hplen]
    · rw [List.length_map]
      exact hshape p hp idx hidx
  have hsums : ∀ idx ∈ List.range r0.2.length,
      sumLayer ((r0 :: rs).map Prod.snd) idx ((r0.2.getD idx []).map (fun _ => (0 : ℚ))) =
        Except.ok (sumAt ((r0 :: rs).map Prod.snd) idx
          ((r0.2.getD idx []).map (fun _ => (0 : ℚ)))) :=
    fun idx hidx =>
      (sumLayer_eq idx ((r0 :: rs).map Prod.snd) _ (hcond idx (List.mem_range.mp hidx))).1
  have havg := avgLoop_eq ((r0 :: rs).map Prod.snd) r0.2 ((r0 :: rs).length : ℚ)
    (List.range r0.2.length) hsums
  refine ⟨(List.range r0.2.length).map (fun idx =>
      (sumAt ((r0 :: rs).map Prod.snd) idx
        ((r0.2.getD idx []).map (fun _ => (0 : ℚ)))).map
        (fun q => q / ((r0 :: rs).length : ℚ))), ?_, ?_, ?_⟩
  · simp only [federated_average]
    exact havg
  · rw [List.length_map, List.length_range]
  · intro i hi j
    have hgi : ((List.range r0.2.length).map (fun idx =>
        (sumAt ((r0 :: rs).map Prod.snd) idx
          ((r0.2.getD idx []).map (fun _ => (0 : ℚ)))).map
          (fun q => q / ((r0 :: rs).length : ℚ)))).getD i [] =
        (sumAt ((r0 :: rs).map Prod.snd) i
          ((r0.2.getD i []).map (fun _ => (0 : ℚ)))).map
          (fun q => q / ((r0 :: rs).length : ℚ)) := by
      rw [List.getD_eq_getElem?_getD, List.getElem?_map, List.getElem?_range hi]
      simp
    rw [hgi, map_div_getD, sumAt_getD i ((r0 :: rs).map Prod.snd) _ (hcond i hi) j,
      map_zero_getD, zero_add, List.map_map]
    rfl

/-- C4 witness: the spec example — two regions with single-element single
layers [2.0] and [4.0]; the theorem applies with the shape hypotheses checked
by evaluation. -/
theorem C4_fedavg_elementwise_mean_witness :
    ∃ g, federated_average [("Kottayam", [[2]]), ("Idukki", [[4]])] = Except.ok g ∧
      g.length = ([[(2 : ℚ)]]).length ∧
      ∀ i, i < ([[(2 : ℚ)]]).length → ∀ j,
        (g.getD i []).getD j 0 =
          (([("Kottayam", [[(2 : ℚ)]]), ("Idukki", [[(4 : ℚ)]])]).map
            (fun p => ((p.2.getD i []).getD j 0))).sum /
            (([("Kottayam", [[(2 : ℚ)]]), ("Idukki", [[(4 : ℚ)]])]).length : ℚ) :=
  C4_fedavg_elementwise_mean ("Kottayam", [[2]]) [("Idukki", [[4]])]
    (by decide) (by decide)

/-- C3 counterexample: regions with mismatched layer shapes (a length-3 layer
against a length-1 layer) do NOT raise: numpy broadcasting silently averages
them, and federated_average returns a partial-nonsense aggregation. No
AggregationShapeError exists anywhere in the code. -/
theorem C3_broadcast_mismatch_silent :
    federated_average [("Kottayam", [[1, 2, 3]]), ("Idukki", [[10]])] =
      Except.ok [[11/2, 6, 13/2]] := by
  have h1 : addBroadcast [(0 : ℚ), 0, 0] [1, 2, 3] = Except.ok [1, 2, 3] := by
    rw [addBroadcast, if_pos (by simp)]
    norm_num
  have h2 : addBroadcast [(1 : ℚ), 2, 3] [10] = Except.ok [11, 12, 13] := by
    rw [addBroadcast, if_neg (by simp), if_pos (by simp)]
    norm_num
  simp only [federated_average, List.map, List.length_cons, List.length_nil]
  rw [show List.range (0 + 1) = [0] by simp [List.range_succ]]
  simp only [avgLoop, sumLayer, List.getD_cons_zero, List.getElem?_cons_zero, h1, h2,
    List.map]
  norm_num

/-- C3 (amended): a shape mismatch aborts the aggregation only when the
offending layer cannot be broadcast into the corresponding layer of the
first region (the lengths differ and neither is 1); it then surfaces as a generic
broadcasting error, not a dedicated AggregationShapeError. -/
theorem C3_nonbroadcastable_mismatch_aborts (nameA nameB : String) (u w : List ℚ)
    (h1 : w.length ≠ u.length) (h2 : w.length ≠ 1) :
    federated_average [(nameA, [u]), (nameB, [w])] =
      Except.error "ValueError: operands could not be broadcast together" := by
  have haddb1 : addBroadcast (u.map (fun _ => (0 : ℚ))) u =
      Except.ok (List.zipWith (· + ·) (u.map (fun _ => (0 : ℚ))) u) := by
    rw [addBroadcast, if_pos (by rw [List.length_map])]
  have hlen2 : (List.zipWith (· + ·) (u.map (fun _ => (0 : ℚ))) u).length = u.length := by
    simp [List.length_zipWith]
  have haddb2 : addBroadcast (List.zipWith (· + ·) (u.map (fun _ => (0 : ℚ))) u) w =
      Except.error "ValueError: operands could not be broadcast together" := by
    rw [addBroadcast, hlen2, if_neg h1, if_neg h2]
  simp only [federated_average, List.map, List.length_cons, List.length_nil]
  rw [show List.range (0 + 1) = [0] by simp [List.range_succ]]
  simp only [avgLoop, sumLayer, List.getD_cons_zero, List.getElem?_cons_zero, haddb1, haddb2]

/-- C3 witness: the amended theorem at layers of lengths 2 and 3. -/
theorem C3_nonbroadcastable_mismatch_aborts_witness :
    federated_average [("Kottayam", [[2, 3]]), ("Idukki", [[5, 6, 7]])] =
      Except.error "ValueError: operands could not be broadcast together" :=
  C3_nonbroadcastable_mismatch_aborts "Kottayam" "Idukki" [2, 3] [5, 6, 7]
    (by decide) (by decide)

-- Claim theorems: region recommendation

lemma pyMax3 (k i e : String) (vK vI vE : ℚ) :
    pyMaxByVal (k, vK) [(i, vI), (e, vE)] =
      (if vI > vK then (if vE > vI then (e, vE) else (i, vI))
       else (if vE > vK then (e, vE) else (k, vK))) := by
  simp only [pyMaxByVal, List.foldl]
  by_cases h1 : vI > vK <;> by_cases h2 : vE > vI <;> by_cases h3 : vE > vK <;>
    simp [h1, h2, h3]

/-- The first region in the canonical Kottayam, Idukki, Ernakulam order that
attains the maximal 7-day average. -/
def firstMaxRegion (vK vI vE : ℚ) : String :=
  if vK = max (max vK vI) vE then "Kottayam"
  else if vI = max (max vK vI) vE then "Idukki" else "Ernakulam"

lemma bestRegion3_first (vK vI vE : ℚ) :
    (pyMaxByVal ("Kottayam", vK) [("Idukki", vI), ("Ernakulam", vE)]).1 =
      firstMaxRegion vK vI vE := by
  rw [pyMax3]
  unfold firstMaxRegion
  rcases le_or_lt vI vK with h1 | h1
  · rw [if_neg (not_lt.mpr h1)]
    rcases le_or_lt vE vK with h2 | h2
    · rw [if_neg (not_lt.mpr h2)]
      have hm : max (max vK vI) vE = vK := by
        rw [max_eq_left h1, max_eq_left h2]
      rw [hm, if_pos rfl]
    · rw [if_pos h2]
      have hm : max (max vK vI) vE = vE := by
        rw [max_eq_left h1, max_eq_right (le_of_lt h2)]
      rw [hm, if_neg (by intro h0; exact absurd h0 (ne_of_lt h2)),
        if_neg (by intro h0; nlinarith)]
  · rw [if_pos h1]
    rcases le_or_lt vE vI with h2 | h2
    · rw [if_neg (not_lt.mpr h2)]
      have hm : max (max vK vI) vE = vI := by
        rw [max_eq_right (le_of_lt h1), max_eq_left h2]
      rw [hm, if_neg (by intro h0; exact absurd h0 (ne_of_lt h1)), if_pos rfl]
    · rw [if_pos h2]
      have hm : max (max vK vI) vE = vE := by
        rw [max_eq_right (le_of_lt h1), max_eq_right (le_of_lt h2)]
      rw [hm, if_neg (by intro h0; nlinarith), if_neg (by intro h0; exact absurd h0 (ne_of_lt h2))]

lemma bestRegion3_val (vK vI vE : ℚ) :
    (pyMaxByVal ("Kottayam", vK) [("Idukki", vI), ("Ernakulam", vE)]).2 =
      max (max vK vI) vE := by
  rw [pyMax3]
  rcases le_or_lt vI vK with h1 | h1
  · rw [if_neg (not_lt.mpr h1)]
    rcases le_or_lt vE vK with h2 | h2
    · rw [if_neg (not_lt.mpr h2), max_eq_left h1, max_eq_left h2]
    · rw [if_pos h2, max_eq_left h1, max_eq_right (le_of_lt h2)]
  · rw [if_pos h1]
    rcases le_or_lt vE vI with h2 | h2
    · rw [if_neg (not_lt.mpr h2), max_eq_right (le_of_lt h1), max_eq_left h2]
    · rw [if_pos h2, max_eq_right (le_of_lt h1), max_eq_right (le_of_lt h2)]

lemma regions_title_fix : ∀ loc ∈ REGIONS, pyTitle (pyStrip loc) = loc := by decide

/-- Reduction of recommend_best_region once validation passes and the
rounded 7-day averages are computed. -/
lemma recommend_best_region_red (crop : String) (cp : ℚ) (loc : String)
    (hcrop : pyLower (pyStrip crop) ∈ SUPPORTED_CROPS)
    (hloc : pyTitle (pyStrip loc) ∈ REGIONS)
    (forecasts : List (String × List ℚ)) (a : String × ℚ) (rest : List (String × ℚ))
    (hmap : forecasts.map (fun rd => (rd.1, avg7 rd.2)) = a :: rest) :
    recommend_best_region crop cp loc forecasts = Except.ok
      { crop := pyLower (pyStrip crop)
        current_location := pyTitle (pyStrip loc)
        current_price := cp
        best_region := (pyMaxByVal a rest).1
        expected_avg_price_next_7_days := (pyMaxByVal a rest).2
        price_difference := pyRound 2 ((pyMaxByVal a rest).2 - cp)
        all_region_averages := a :: rest
        recommendation := if (pyMaxByVal a rest).1 = pyTitle (pyStrip loc) then
            "Current location is optimal for selling"
          else "Sell in " ++ (pyMaxByVal a rest).1 ++ " for higher expected returns" } := by
  simp only [recommend_best_region]
  rw [if_neg (not_not_intro hcrop), if_neg (not_not_intro hloc), hmap]

lemma avg7_replicate (a : ℚ) : avg7 (List.replicate 7 a) = pyRound 2 a := by
  simp only [avg7, npMean, List.take_replicate, List.sum_replicate, List.length_replicate,
    nsmul_eq_mul]
  norm_num

/-- C10: when regions tie for the maximal 7-day average, recommend_best_region
selects the tied region that comes first in the canonical (insertion) order
Kottayam, Idukki, Ernakulam: the chosen region is always the first one
attaining the maximum, and the selection is a pure function of the forecasts. -/
theorem C10_tie_break_first_in_order (cp : ℚ) (fK fI fE : List ℚ) :
    ∃ r, recommend_best_region "rubber" cp "Kottayam"
        [("Kottayam", fK), ("Idukki", fI), ("Ernakulam", fE)] = Except.ok r ∧
      r.best_region = firstMaxRegion (avg7 fK) (avg7 fI) (avg7 fE) := by
  have hred := recommend_best_region_red "rubber" cp "Kottayam" (by decide) (by decide)
    [("Kottayam", fK), ("Idukki", fI), ("Ernakulam", fE)]
    ("Kottayam", avg7 fK) [("Idukki", avg7 fI), ("Ernakulam", avg7 fE)] rfl
  exact ⟨_, hred, bestRegion3_first _ _ _⟩

/-- C5 counterexample: with tied maximal averages (Kottayam 120, Idukki 120,
Ernakulam 90) and the caller located in Idukki — which attains the maximum —
the code recommends switching to Kottayam instead of reporting the own
region as optimal. -/
theorem C5_tie_not_own_region :
    (recommend_best_region "rubber" 100 "Idukki"
        [("Kottayam", List.replicate 7 120), ("Idukki", List.replicate 7 120),
          ("Ernakulam", List.replicate 7 90)]).map
      (fun r => (r.best_region, r.recommendation, r.all_region_averages)) =
      Except.ok ("Kottayam", "Sell in Kottayam for higher expected returns",
        [("Kottayam", 120), ("Idukki", 120), ("Ernakulam", 90)]) := by
  have h120 : avg7 (List.replicate 7 (120 : ℚ)) = 120 := by
    rw [avg7_replicate]
    norm_num [pyRound]
  have h90 : avg7 (List.replicate 7 (90 : ℚ)) = 90 := by
    rw [avg7_replicate]
    norm_num [pyRound]
  have hred := recommend_best_region_red "rubber" 100 "Idukki" (by decide) (by decide)
    [("Kottayam", List.replicate 7 120), ("Idukki", List.replicate 7 120),
      ("Ernakulam", List.replicate 7 90)]
    ("Kottayam", avg7 (List.replicate 7 120))
    [("Idukki", avg7 (List.replicate 7 120)), ("Ernakulam", avg7 (List.replicate 7 90))] rfl
  rw [hred]
  simp only [Except.map, h120, h90]
  rw [pyMax3, if_neg (by norm_num), if_neg (by norm_num)]
  rw [if_neg (by decide)]
  rfl

/-- C5 (amended): recommend_best_region computes rounded 7-day means, selects
the FIRST region in insertion order attaining the maximal rounded mean,
reports that maximum and price_difference = round2(best_avg - current_price),
and emits the optimal-location message exactly when the selected region is
the one of the caller. -/
theorem C5_recommend_characterization (cp : ℚ) (loc : String) (hloc : loc ∈ REGIONS)
    (fK fI fE : List ℚ) :
    ∃ r, recommend_best_region "rubber" cp loc
        [("Kottayam", fK), ("Idukki", fI), ("Ernakulam", fE)] = Except.ok r ∧
      r.all_region_averages =
        [("Kottayam", avg7 fK), ("Idukki", avg7 fI), ("Ernakulam", avg7 fE)] ∧
      r.best_region = firstMaxRegion (avg7 fK) (avg7 fI) (avg7 fE) ∧
      r.expected_avg_price_next_7_days = max (max (avg7 fK) (avg7 fI)) (avg7 fE) ∧
      r.price_difference = pyRound 2 (max (max (avg7 fK) (avg7 fI)) (avg7 fE) - cp) ∧
      r.recommendation = (if r.best_region = loc then
          "Current location is optimal for selling"
        else "Sell in " ++ r.best_region ++ " for higher expected returns") := by
  have htitle : pyTitle (pyStrip loc) = loc := regions_title_fix loc hloc
  have hred := recommend_best_region_red "rubber" cp loc (by decide)
    (by rw [htitle]; exact hloc)
    [("Kottayam", fK), ("Idukki", fI), ("Ernakulam", fE)]
    ("Kottayam", avg7 fK) [("Idukki", avg7 fI), ("Ernakulam", avg7 fE)] rfl
  refine ⟨_, hred, rfl, bestRegion3_first _ _ _, bestRegion3_val _ _ _, ?_, ?_⟩
  · rw [bestRegion3_val]
  · rw [htitle]

/-- C5 witness: the spec example — averages 100, 120, 90 with the caller in
Kottayam; the characterization applies with the region hypothesis checked by
evaluation. -/
theorem C5_recommend_characterization_witness :
    ∃ r, recommend_best_region "rubber" 100 "Kottayam"
        [("Kottayam", List.replicate 7 100), ("Idukki", List.replicate 7 120),
          ("Ernakulam", List.replicate 7 90)] = Except.ok r ∧
      r.all_region_averages =
        [("Kottayam", avg7 (List.replicate 7 100)), ("Idukki", avg7 (List.replicate 7 120)),
          ("Ernakulam", avg7 (List.replicate 7 90))] ∧
      r.best_region = firstMaxRegion (avg7 (List.replicate 7 100))
        (avg7 (List.replicate 7 120)) (avg7 (List.replicate 7 90)) ∧
      r.expected_avg_price_next_7_days = max (max (avg7 (List.replicate 7 100))
        (avg7 (List.replicate 7 120))) (avg7 (List.replicate 7 90)) ∧
      r.price_difference = pyRound 2 (max (max (avg7 (List.replicate 7 100))
        (avg7 (List.replicate 7 120))) (avg7 (List.replicate 7 90)) - 100) ∧
      r.recommendation = (if r.best_region = "Kottayam" then
          "Current location is optimal for selling"
        else "Sell in " ++ r.best_region ++ " for higher expected returns") :=
  C5_recommend_characterization 100 "Kottayam" (by decide)
    (List.replicate 7 100) (List.replicate 7 120) (List.replicate 7 90)
